import Mathlib

/-!
Shallow embedding of `slack_exporter.py` (class `SlackExporter`).

JSON dictionaries from the Slack API are embedded as Lean structures whose
optional fields model `dict.get` with its Python defaults; HTTP calls are
embedded as oracle functions passed explicitly (the script of responses the
network would deliver), and `Exception`s raised by `_make_request` as
`Except.error`.  The mutable `self.user_cache` dictionary is threaded as an
explicit association list, together with a counter of upstream requests made,
so that caching claims can be stated.  File writing is modelled by the list of
file paths written, in order; file *content* is not modelled, since no claim
under verification depends on it.
-/

namespace SlackExp

/-- A message dictionary.  Fields model `msg.get(key)`; `none` is an absent
key (Python `None` default), and `reply_count` models `msg.get("reply_count", 0)`.
`replies` models the `"replies"` key that `_fetch_replies_for_messages`
attaches (`none` = key absent).  Fields of the dictionary no modelled claim
reads (`text`, `blocks`, `files`) are omitted. -/
inductive Msg where
  | mk : (ts : Option String) → (user : Option String) → (subtype : Option String) →
      (username : Option String) → (thread_ts : Option String) →
      (reply_count : Nat) → (replies : Option (List Msg)) → Msg

/-- Models `msg.get("ts")`. -/
def Msg.ts : Msg → Option String
  | .mk t _ _ _ _ _ _ => t

/-- Models `msg.get("user")`. -/
def Msg.user : Msg → Option String
  | .mk _ u _ _ _ _ _ => u

/-- Models `msg.get("subtype")`. -/
def Msg.subtype : Msg → Option String
  | .mk _ _ s _ _ _ _ => s

/-- Models `msg.get("username")`. -/
def Msg.username : Msg → Option String
  | .mk _ _ _ u _ _ _ => u

/-- Models `msg.get("thread_ts")`. -/
def Msg.thread_ts : Msg → Option String
  | .mk _ _ _ _ t _ _ => t

/-- Models `msg.get("reply_count", 0)`. -/
def Msg.reply_count : Msg → Nat
  | .mk _ _ _ _ _ n _ => n

/-- The `"replies"` key (`none` = never attached). -/
def Msg.replies : Msg → Option (List Msg)
  | .mk _ _ _ _ _ _ r => r

/-- Models `msg["replies"] = rs` (dictionary update performed by
`_fetch_replies_for_messages`). -/
def Msg.setReplies : Msg → Option (List Msg) → Msg
  | .mk t u s un tt n _, r => .mk t u s un tt n r

/-- One decoded `conversations.history` response: the `"messages"` list, the
`"has_more"` flag (absent = falsy = `false`), and
`data.get("response_metadata", {}).get("next_cursor")` (`none` = metadata or
key absent). -/
structure Page where
  messages : List Msg
  has_more : Bool
  next_cursor : Option String

/-- Python truthiness of the extracted cursor: `None` and `""` are falsy
(`if not cursor: break`). -/
def cursorTruthy : Option String → Bool
  | none => false
  | some s => s != ""

/-- The pagination loop of `fetch_messages`, lines 123-147: each iteration
extends the accumulator with the page's messages, breaks if `has_more` is
falsy, then breaks if the extracted cursor is falsy.  The page list is the
script of successive `conversations.history` responses. -/
def fetchLoop : List Page → List Msg
  | [] => []
  | p :: rest =>
      p.messages ++ (if p.has_more && cursorTruthy p.next_cursor then fetchLoop rest else [])

/-- How many `conversations.history` responses the loop consumes before
breaking (1 = no extra pagination call after the first page). -/
def pagesConsumed : List Page → Nat
  | [] => 0
  | p :: rest =>
      1 + (if p.has_more && cursorTruthy p.next_cursor then pagesConsumed rest else 0)

/-- Digit string to natural number (helper for `parseTs`). -/
def digitsToNat (cs : List Char) : Nat :=
  cs.foldl (fun a c => a * 10 + (c.toNat - Char.toNat '0')) 0

/-- Models Python `float(s)` on the decimal timestamp strings Slack produces
(`"<digits>.<digits>"` or `"<digits>"`), as an exact rational. -/
def parseTs (s : String) : ℚ :=
  match s.splitOn "." with
  | [i] => (digitsToNat i.data : ℚ)
  | [i, f] => (digitsToNat i.data : ℚ) + (digitsToNat f.data : ℚ) / (10 ^ f.length : ℚ)
  | _ => 0

/-- The sort key of line 149: `float(x.get("ts", 0))`; a message with no
`"ts"` key gets `float(0) = 0`. -/
def sortKey (m : Msg) : ℚ :=
  match m.ts with
  | none => 0
  | some s => parseTs s

/-- Boolean comparison used for sorting messages by numeric timestamp. -/
def msgLe (a b : Msg) : Bool :=
  sortKey a ≤ sortKey b

/-- Models `messages.sort(key=lambda x: float(x.get("ts", 0)))` (line 149): a stable
sort by the numeric timestamp key. -/
def sortMessages (msgs : List Msg) : List Msg :=
  msgs.mergeSort msgLe

/-- Models `_fetch_thread_replies` (lines 179-199) applied to the `"messages"` list
of the `conversations.replies` response:
`all_messages[1:] if len(all_messages) > 1 else []`. -/
def fetch_thread_replies (all_messages : List Msg) : List Msg :=
  if all_messages.length > 1 then all_messages.drop 1 else []

/-- Models `_fetch_replies_for_messages` (lines 156-177).  `rapi ts` is the
`"messages"` list of the `conversations.replies` response for parent
timestamp `ts` (the thread-replies oracle). -/
def fetch_replies_for_messages (rapi : Option String → List Msg) (msgs : List Msg) :
    List Msg :=
  msgs.map fun m =>
    if m.reply_count > 0 then m.setReplies (some (fetch_thread_replies (rapi m.ts))) else m

/-- Models `fetch_messages` (lines 99-154) given the script of history pages and the
thread-replies oracle: paginate, sort by numeric timestamp, then optionally
hydrate replies. -/
def fetch_messages (pages : List Page) (rapi : Option String → List Msg)
    (include_replies : Bool) : List Msg :=
  let msgs := sortMessages (fetchLoop pages)
  if include_replies then fetch_replies_for_messages rapi msgs else msgs

/-- The decoded JSON body of an API response, restricted to the fields
`_make_request` inspects: `"ok"` (`none` = key absent, which is falsy like
`False`) and `"error"`. -/
structure ApiResp where
  ok : Option Bool
  error : Option String

/-- Python truthiness of the decoded `"ok"` field: only `True` is truthy. -/
def okTruthy : Option Bool → Bool
  | some true => true
  | _ => false

/-- The response handling of `_make_request` (lines 40-63): the argument is
the transport outcome (`Except.error` = `requests` raised, carrying its
message; `Except.ok` = a decoded JSON body).  A falsy `"ok"` raises
`Exception("Slack API error: " + data.get("error", "Unknown error"))`; a
transport failure raises `Exception("Request failed: " + str(e))`. -/
def make_request (transport : Except String ApiResp) : Except String ApiResp :=
  match transport with
  | .error e => .error ("Request failed: " ++ e)
  | .ok data =>
      if okTruthy data.ok then .ok data
      else .error ("Slack API error: " ++ data.error.getD "Unknown error")

/-- The fields of a user-info dictionary that the exporter reads:
`real_name`, `profile.display_name`, and `name`; `none` = key absent
(`.get` default `""` applied at use sites). -/
structure UserInfo where
  real_name : Option String
  display_name : Option String
  name : Option String
deriving DecidableEq

/-- A user dictionary as stored in `self.user_cache`: `.empty` is `{}`
(falsy under `if user_info:`), `.info` a non-empty dictionary. -/
inductive UserDict where
  | empty
  | info (i : UserInfo)
deriving DecidableEq

/-- Models `self.user_cache`, newest entry first (`dict` modelled as an association
list probed front to back). -/
abbrev Cache := List (String × UserDict)

/-- Models `user_id in self.user_cache` and `self.user_cache[user_id]`. -/
def cacheLookup (c : Cache) (uid : String) : Option UserDict :=
  (List.find? (fun p => p.1 = uid) c).map Prod.snd

/-- The `users.info` oracle: what `_make_request("users.info", ...)` yields
for a user ID — `Except.error` if it raises, otherwise the `"user"` field of
the response (`none` = key absent, so `.get("user", {})` gives `{}`). -/
def UApi := String → Except String (Option UserDict)

/-- Outcome of one `get_user_info` call: the returned dictionary, the user
cache afterwards, and how many upstream requests the call made. -/
structure LookupResult where
  ret : UserDict
  cache : Cache
  requests : Nat
deriving DecidableEq

/-- Models `get_user_info` (lines 78-97): answer from the cache when the ID is
present; otherwise call `users.info`, extract `data.get("user", {})`, cache
it and return it; on any exception return `{}` without caching. -/
def get_user_info (uapi : UApi) (cache : Cache) (uid : String) : LookupResult :=
  match cacheLookup cache uid with
  | some u => ⟨u, cache, 0⟩
  | none =>
      match uapi uid with
      | .ok userField =>
          let ui := userField.getD .empty
          ⟨ui, (uid, ui) :: cache, 1⟩
      | .error _ => ⟨.empty, cache, 1⟩

/-- Python `a or b` on strings: the first operand unless it is falsy
(empty). -/
def orS (a b : String) : String :=
  if a = "" then b else a

/-- Models `_get_user_display` (lines 340-365), threading the user cache and
counting upstream requests.  `user_id` is the string the call sites pass
(`message.get("user", "")`), so falsy = `""`. -/
def get_user_display (uapi : UApi) (cache : Cache) (user_id : String) (message : Msg) :
    String × Cache × Nat :=
  if message.subtype == some "bot_message" then
    (message.username.getD "Bot", cache, 0)
  else if user_id = "" then
    ("Unknown User", cache, 0)
  else
    let r := get_user_info uapi cache user_id
    match r.ret with
    | .empty => ("User " ++ user_id, r.cache, r.requests)
    | .info i =>
        (orS (i.real_name.getD "")
          (orS (i.display_name.getD "")
            (orS (i.name.getD "") ("User " ++ user_id))),
         r.cache, r.requests)

/-- One item of a rich-text section, by its `"type"`: `text`, `link`,
`user`, `emoji`, or anything else (`unrecognized`).  Fields are the keys the
renderer reads; `none` = key absent. -/
inductive RichItem where
  | text (t : Option String)
  | link (t : Option String) (url : Option String)
  | user (user_id : Option String)
  | emoji (name : Option String)
  | unrecognized

/-- One element of a rich-text block: a `"rich_text_section"` with its
items, or any other element type. -/
inductive RichElement where
  | richTextSection (elements : List RichItem)
  | otherElement

/-- One block: a `"rich_text"` block with its elements, or any other block
type. -/
inductive Block where
  | richText (elements : List RichElement)
  | otherBlock

/-- The user label of the `"user"` branch of `_extract_text_from_blocks`
(lines 324-332): `display_name or username or user_id` when the dictionary
is truthy, the raw ID otherwise. -/
def mentionDisplay (ui : UserDict) (uid : String) : String :=
  match ui with
  | .empty => uid
  | .info i => orS (i.display_name.getD "") (orS (i.name.getD "") uid)

/-- The strings one item appends to `text_parts` (lines 318-336): one string
per recognized item, none for an unrecognized one; user mentions resolve
through `get_user_info`. -/
def renderItem (uapi : UApi) (cache : Cache) : RichItem → List String × Cache × Nat
  | .text t => ([t.getD ""], cache, 0)
  | .link t url =>
      ([ "[" ++ t.getD (url.getD "") ++ "](" ++ url.getD "" ++ ")" ], cache, 0)
  | .user user_id =>
      let uid := user_id.getD "unknown"
      let r := get_user_info uapi cache uid
      (["@" ++ mentionDisplay r.ret uid], r.cache, r.requests)
  | .emoji name => ([":" ++ name.getD "" ++ ":"], cache, 0)
  | .unrecognized => ([], cache, 0)

/-- Items of one section processed in order, accumulating `text_parts` and
threading the cache. -/
def renderItems (uapi : UApi) : List RichItem → Cache → List String × Cache × Nat
  | [], c => ([], c, 0)
  | it :: rest, c =>
      let r := renderItem uapi c it
      let rs := renderItems uapi rest r.2.1
      (r.1 ++ rs.1, rs.2.1, r.2.2 + rs.2.2)

/-- One element of a rich-text block: only `"rich_text_section"` elements
contribute (line 316). -/
def renderElement (uapi : UApi) (c : Cache) : RichElement → List String × Cache × Nat
  | .richTextSection items => renderItems uapi items c
  | .otherElement => ([], c, 0)

/-- Elements processed in order. -/
def renderElements (uapi : UApi) : List RichElement → Cache → List String × Cache × Nat
  | [], c => ([], c, 0)
  | e :: rest, c =>
      let r := renderElement uapi c e
      let rs := renderElements uapi rest r.2.1
      (r.1 ++ rs.1, rs.2.1, r.2.2 + rs.2.2)

/-- One block: only `"rich_text"` blocks contribute (line 314). -/
def renderBlock (uapi : UApi) (c : Cache) : Block → List String × Cache × Nat
  | .richText els => renderElements uapi els c
  | .otherBlock => ([], c, 0)

/-- Blocks processed in order. -/
def renderBlocks (uapi : UApi) : List Block → Cache → List String × Cache × Nat
  | [], c => ([], c, 0)
  | b :: rest, c =>
      let r := renderBlock uapi c b
      let rs := renderBlocks uapi rest r.2.1
      (r.1 ++ rs.1, rs.2.1, r.2.2 + rs.2.2)

/-- Models `_extract_text_from_blocks` (lines 301-338):
`"".join(text_parts) if text_parts else None`, returning also the cache and
the number of upstream requests made. -/
def extract_text_from_blocks (uapi : UApi) (cache : Cache) (blocks : List Block) :
    Option String × Cache × Nat :=
  let r := renderBlocks uapi blocks cache
  ((if r.1 = [] then none else some (String.join r.1)), r.2.1, r.2.2)

/-- Whether an item's `"type"` is one of the four recognized kinds. -/
def itemRecognized : RichItem → Bool
  | .unrecognized => false
  | _ => true

/-- The items of the `"rich_text_section"` elements of a list of elements,
in order. -/
def sectionItems : List RichElement → List RichItem
  | [] => []
  | .richTextSection items :: rest => items ++ sectionItems rest
  | .otherElement :: rest => sectionItems rest

/-- The items of the `"rich_text"` blocks of a list of blocks, in order. -/
def blockItems : List Block → List RichItem
  | [] => []
  | .richText els :: rest => sectionItems els ++ blockItems rest
  | .otherBlock :: rest => blockItems rest

/-- The recognized items the renderer walks over, in order. -/
def recognizedItems (blocks : List Block) : List RichItem :=
  (blockItems blocks).filter itemRecognized

/-- A block holding a single section with a single item (scenario building
block for rendering statements). -/
def oneItem (it : RichItem) : Block :=
  .richText [.richTextSection [it]]

/-- Models `msg.get("replies", [])` as read by `export_threads_individually`
(line 237). -/
def repliesOf (m : Msg) : List Msg :=
  m.replies.getD []

/-- Models `msg.get("thread_ts") == msg.get("ts")` (line 228); Python `None == None`
is `True`, which `Option` equality mirrors. -/
def isThreadParent (m : Msg) : Bool :=
  m.thread_ts == m.ts

/-- Models `metadata["thread_id"].replace(".", "_")` (line 247): every period
becomes an underscore. -/
def normalize_thread_id (s : String) : String :=
  ⟨s.data.map fun c => if c = '.' then '_' else c⟩

/-- The running tallies of `export_threads_individually`: the paths written
so far in order, `exported_count`, and `skipped_count`. -/
structure ExportResult where
  files : List String
  exported : Nat
  skipped : Nat
deriving DecidableEq

/-- The directory `Path(output_dir) / channel_name / "threads"` (line 222). -/
def threadsDir (output_dir channel_name : String) : String :=
  output_dir ++ "/" ++ channel_name ++ "/threads"

/-- The body of the per-parent loop of `export_threads_individually`
(lines 236-291): skip a parent with no attached replies unless
`include_standalone`, otherwise write
`threads_dir / ("thread_" + thread_id + ".md")` and count it exported.
The `thread_id` is `parent_msg.get("ts", "")` with periods replaced. -/
def exportStep (output_dir channel_name : String) (include_standalone : Bool)
    (acc : ExportResult) (parent_msg : Msg) : ExportResult :=
  let replies := repliesOf parent_msg
  if replies.length = 0 && !include_standalone then
    ⟨acc.files, acc.exported, acc.skipped + 1⟩
  else
    let thread_id := normalize_thread_id (parent_msg.ts.getD "")
    let file_path := threadsDir output_dir channel_name ++ "/thread_" ++ thread_id ++ ".md"
    ⟨acc.files ++ [file_path], acc.exported + 1, acc.skipped⟩

/-- Models `export_threads_individually` (lines 201-299) reduced to its observable
outcome: which files are written (by path, in order) and the final
exported/skipped counters.  `channel_id` and `days_back` only appear in file
content and console output, which are not modelled. -/
def export_threads_individually (messages : List Msg)
    (output_dir channel_name channel_id : String) (days_back : Nat)
    (include_standalone : Bool) : ExportResult :=
  let thread_parents := messages.filter isThreadParent
  thread_parents.foldl (exportStep output_dir channel_name include_standalone) ⟨[], 0, 0⟩

/-! ## Theorems -/

/-- C3: the thread-reply fetch strips exactly the first returned entry of
the replies-endpoint response: a one-entry response (the echoed parent)
yields no replies, an N-entry response (N > 1) yields the last N - 1 entries
in their returned order, and an empty response yields the empty sequence. -/
theorem fetch_thread_replies_strips_parent :
    (∀ (parent : Msg) (rest : List Msg), fetch_thread_replies (parent :: rest) = rest) ∧
    fetch_thread_replies [] = [] := by
  refine ⟨fun parent rest => ?_, rfl⟩
  cases rest with
  | nil => rfl
  | cons q qs => simp [fetch_thread_replies]

/-- Helper for C4: the loop's boolean continue-condition is falsy exactly
when `has_more` is falsy or the extracted cursor is falsy (absent or the
empty string). -/
theorem loop_stop_iff (p : Page) :
    (p.has_more && cursorTruthy p.next_cursor) = false ↔
      (p.has_more = false ∨ p.next_cursor = none ∨ p.next_cursor = some "") := by
  cases hm : p.has_more <;> cases hc : p.next_cursor <;>
    simp [cursorTruthy, bne_eq_false_iff_eq]

/-- C4: the pagination loop of `fetch_messages` consumes exactly one page —
i.e. stops, making no further history call — precisely when that page's
`has_more` is falsy or no (non-empty) `next_cursor` is present in its
response metadata; in the stopping case it returns the messages accumulated
so far rather than failing, and otherwise it continues with the next page. -/
theorem fetch_loop_stop (p : Page) (rest : List Page) :
    (rest ≠ [] →
      (pagesConsumed (p :: rest) = 1 ↔
        (p.has_more = false ∨ p.next_cursor = none ∨ p.next_cursor = some ""))) ∧
    ((p.has_more = false ∨ p.next_cursor = none ∨ p.next_cursor = some "") →
      fetchLoop (p :: rest) = p.messages) ∧
    (¬(p.has_more = false ∨ p.next_cursor = none ∨ p.next_cursor = some "") →
      fetchLoop (p :: rest) = p.messages ++ fetchLoop rest ∧
      pagesConsumed (p :: rest) = 1 + pagesConsumed rest) := by
  refine ⟨?_, ?_, ?_⟩
  · intro hrest
    constructor
    · intro h1
      by_contra hstop
      have hcont : (p.has_more && cursorTruthy p.next_cursor) = true := by
        cases hb : (p.has_more && cursorTruthy p.next_cursor) with
        | false => exact absurd ((loop_stop_iff p).mp hb) hstop
        | true => rfl
      have hpos : 1 ≤ pagesConsumed rest := by
        cases rest with
        | nil => exact absurd rfl hrest
        | cons q more =>
            rw [pagesConsumed]
            omega
      rw [pagesConsumed, if_pos hcont] at h1
      omega
    · intro hstop
      have hb := (loop_stop_iff p).mpr hstop
      rw [pagesConsumed, if_neg (by simp [hb])]
  · intro hstop
    have hb := (loop_stop_iff p).mpr hstop
    rw [fetchLoop, if_neg (by simp [hb])]
    simp
  · intro hstop
    have hcont : (p.has_more && cursorTruthy p.next_cursor) = true := by
      cases hb : (p.has_more && cursorTruthy p.next_cursor) with
      | false => exact absurd ((loop_stop_iff p).mp hb) hstop
      | true => rfl
    exact ⟨by rw [fetchLoop, if_pos hcont], by rw [pagesConsumed, if_pos hcont]⟩

/-- C4 witness: scenario A — a single page with `has_more = false` and one
message: one history call, that one message returned. -/
theorem fetch_loop_stop_witness :
    ([(⟨[], false, none⟩ : Page)] ≠ ([] : List Page)) ∧
    (false = false ∨ (none : Option String) = none ∨ (none : Option String) = some "") ∧
    pagesConsumed
        [⟨[Msg.mk (some "1.0") none none none none 0 none], false, none⟩,
          ⟨[], false, none⟩] = 1 ∧
    fetchLoop
        [⟨[Msg.mk (some "1.0") none none none none 0 none], false, none⟩,
          ⟨[], false, none⟩] =
      [Msg.mk (some "1.0") none none none none 0 none] := by
  have h := fetch_loop_stop ⟨[Msg.mk (some "1.0") none none none none 0 none], false, none⟩
    [⟨[], false, none⟩]
  exact ⟨by simp, Or.inl rfl, (h.1 (by simp)).mpr (Or.inl rfl), h.2.1 (Or.inl rfl)⟩

/-- C5 counterexample: a response with falsy `"ok"` and no `"error"` field
makes the request fail carrying the string `"Unknown error"`, which is not
the `"unknown_error"` the claim states. -/
theorem make_request_default_code_counterexample :
    make_request (.ok ⟨some false, none⟩) =
      .error ("Slack API error: " ++ "Unknown error") ∧
    "Unknown error" ≠ "unknown_error" :=
  ⟨rfl, by decide⟩

/-- C5 (amended): for every decoded response whose `"ok"` field is falsy,
the request fails with an error carrying the API-provided error code, the
code defaulting to `"Unknown error"` when the `"error"` field is absent. -/
theorem make_request_api_error (data : ApiResp) (h : okTruthy data.ok = false) :
    make_request (.ok data) =
      .error ("Slack API error: " ++ data.error.getD "Unknown error") := by
  simp [make_request, h]

/-- C5 witness: a concrete `ok: false` response carrying `invalid_auth`. -/
theorem make_request_api_error_witness :
    okTruthy (some false) = false ∧
    make_request (.ok ⟨some false, some "invalid_auth"⟩) =
      .error ("Slack API error: " ++ "invalid_auth") :=
  ⟨rfl, make_request_api_error ⟨some false, some "invalid_auth"⟩ rfl⟩

/-- C6: a thread parent with zero attached replies is not written when
`include_standalone` is false: the file list is unchanged, the skipped
counter grows by exactly one, and the exported counter is unchanged. -/
theorem export_skips_standalone (output_dir channel_name : String)
    (acc : ExportResult) (p : Msg) (h : repliesOf p = []) :
    exportStep output_dir channel_name false acc p =
      ⟨acc.files, acc.exported, acc.skipped + 1⟩ := by
  simp [exportStep, h]

/-- C6 witness: a concrete reply-less parent is skipped. -/
theorem export_skips_standalone_witness :
    repliesOf (Msg.mk (some "42.0") none none none (some "42.0") 0 none) = [] ∧
    exportStep "exports" "general" false ⟨[], 3, 4⟩
        (Msg.mk (some "42.0") none none none (some "42.0") 0 none) =
      ⟨[], 3, 4 + 1⟩ :=
  ⟨rfl, export_skips_standalone "exports" "general" ⟨[], 3, 4⟩
    (Msg.mk (some "42.0") none none none (some "42.0") 0 none) rfl⟩

/-- C8: for a message of subtype `"bot_message"` carrying a `username`, the
rendered author label is exactly that username, no user-profile lookup is
made, and the user cache is unchanged. -/
theorem get_user_display_bot (uapi : UApi) (cache : Cache) (user_id : String)
    (message : Msg) (u : String) (hsub : message.subtype = some "bot_message")
    (hu : message.username = some u) :
    get_user_display uapi cache user_id message = (u, cache, 0) := by
  simp [get_user_display, hsub, hu]

/-- C8 witness: a `DeployBot` bot message is labeled `"DeployBot"` with zero
upstream requests and an unchanged cache, even with an oracle that would
fail. -/
theorem get_user_display_bot_witness :
    (Msg.mk (some "3.0") (some "U9") (some "bot_message") (some "DeployBot") none 0 none).subtype
        = some "bot_message" ∧
    (Msg.mk (some "3.0") (some "U9") (some "bot_message") (some "DeployBot") none 0 none).username
        = some "DeployBot" ∧
    get_user_display (fun _ => .error "network down") [] "U9"
        (Msg.mk (some "3.0") (some "U9") (some "bot_message") (some "DeployBot") none 0 none) =
      ("DeployBot", [], 0) :=
  ⟨rfl, rfl, get_user_display_bot (fun _ => .error "network down") [] "U9"
    (Msg.mk (some "3.0") (some "U9") (some "bot_message") (some "DeployBot") none 0 none)
    "DeployBot" rfl rfl⟩

/-- C9: an exported thread parent with timestamp `T` produces exactly the
file `<output_dir>/<channel_name>/threads/thread_<normalized T>.md`, where
normalization replaces every period by an underscore, and normalization is
idempotent. -/
theorem export_thread_file_name (output_dir channel_name : String) (inc : Bool)
    (acc : ExportResult) (p : Msg) (T : String) (hts : p.ts = some T)
    (hexp : repliesOf p ≠ [] ∨ inc = true) :
    exportStep output_dir channel_name inc acc p =
      ⟨acc.files ++
          [output_dir ++ "/" ++ channel_name ++ "/threads" ++ "/thread_" ++
            normalize_thread_id T ++ ".md"],
        acc.exported + 1, acc.skipped⟩ ∧
    ∀ s : String, normalize_thread_id (normalize_thread_id s) = normalize_thread_id s := by
  constructor
  · have hcond : ((repliesOf p).length = 0 && !inc) = false := by
      rcases hexp with hr | hi
      · cases hrep : repliesOf p with
        | nil => exact absurd hrep hr
        | cons a l => simp [hrep]
      · simp [hi]
    simp [exportStep, hcond, hts, threadsDir]
  · intro s
    have key : ∀ c : Char,
        (if (if c = '.' then '_' else c) = '.' then '_' else if c = '.' then '_' else c) =
          if c = '.' then '_' else c := by
      intro c
      by_cases h : c = '.'
      · subst h; decide
      · simp [h]
    show (⟨((s.data.map fun c => if c = '.' then '_' else c).map
        fun c => if c = '.' then '_' else c : List Char)⟩ : String) =
      ⟨s.data.map fun c => if c = '.' then '_' else c⟩
    rw [List.map_map]
    congr 1
    exact List.map_congr_left fun c _ => key c

/-- C9 witness: a concrete parent with one reply produces the normalized
file name, and normalizing a concrete timestamp twice equals normalizing it
once. -/
theorem export_thread_file_name_witness :
    (Msg.mk (some "1700000000.123456") none none none (some "1700000000.123456") 1
        (some [Msg.mk (some "1700000001.5") none none none (some "1700000000.123456") 0 none])).ts
      = some "1700000000.123456" ∧
    (repliesOf (Msg.mk (some "1700000000.123456") none none none (some "1700000000.123456") 1
        (some [Msg.mk (some "1700000001.5") none none none (some "1700000000.123456") 0 none])) ≠ []
      ∨ false = true) ∧
    (exportStep "exports" "general" false ⟨[], 0, 0⟩
        (Msg.mk (some "1700000000.123456") none none none (some "1700000000.123456") 1
          (some [Msg.mk (some "1700000001.5") none none none (some "1700000000.123456") 0 none])) =
      ⟨[] ++
          ["exports" ++ "/" ++ "general" ++ "/threads" ++ "/thread_" ++
            normalize_thread_id "1700000000.123456" ++ ".md"],
        0 + 1, 0⟩ ∧
      ∀ s : String, normalize_thread_id (normalize_thread_id s) = normalize_thread_id s) := by
  refine ⟨rfl, Or.inl (by simp [repliesOf, Msg.replies]), ?_⟩
  exact export_thread_file_name "exports" "general" false ⟨[], 0, 0⟩
    (Msg.mk (some "1700000000.123456") none none none (some "1700000000.123456") 1
      (some [Msg.mk (some "1700000001.5") none none none (some "1700000000.123456") 0 none]))
    "1700000000.123456" rfl (Or.inl (by simp [repliesOf, Msg.replies]))

/-- Helper for C10: folding the per-parent export step over parents none of
which carries attached replies only increments the skipped counter. -/
theorem foldl_export_skips (output_dir channel_name : String) (ps : List Msg)
    (h : ∀ m ∈ ps, repliesOf m = []) (acc : ExportResult) :
    ps.foldl (exportStep output_dir channel_name false) acc =
      ⟨acc.files, acc.exported, acc.skipped + ps.length⟩ := by
  induction ps generalizing acc with
  | nil => simp
  | cons p rest ih =>
      have hp : repliesOf p = [] := h p (List.mem_cons_self p rest)
      have hrest : ∀ m ∈ rest, repliesOf m = [] := fun m hm => h m (List.mem_cons_of_mem p hm)
      rw [List.foldl_cons]
      have hstep : exportStep output_dir channel_name false acc p =
          ⟨acc.files, acc.exported, acc.skipped + 1⟩ := by
        simp [exportStep, hp]
      rw [hstep, ih hrest]
      simp only [List.length_cons, ExportResult.mk.injEq]
      refine ⟨trivial, trivial, ?_⟩
      omega

/-- C10: the exporter decides "has replies" only from the attached
`"replies"` list: on a message list where no message carries that key (as
`fetch_messages` with `include_replies = false` yields), exporting with
`include_standalone = false` writes no file and counts every thread parent —
whatever its `reply_count` — as skipped. -/
theorem export_ignores_reply_count (messages : List Msg)
    (output_dir channel_name channel_id : String) (days_back : Nat)
    (h : ∀ m ∈ messages, m.replies = none) :
    export_threads_individually messages output_dir channel_name channel_id days_back false =
      ⟨[], 0, (messages.filter isThreadParent).length⟩ := by
  unfold export_threads_individually
  have h2 : ∀ m ∈ messages.filter isThreadParent, repliesOf m = [] := by
    intro m hm
    have := h m (List.mem_of_mem_filter hm)
    simp [repliesOf, this]
  rw [foldl_export_skips output_dir channel_name _ h2]
  simp

/-- C10 witness: a single thread parent whose `reply_count` is 5 but with no
attached `"replies"` key is skipped and no file is written. -/
theorem export_ignores_reply_count_witness :
    (∀ m ∈ [Msg.mk (some "7.1") none none none (some "7.1") 5 none], m.replies = none) ∧
    export_threads_individually [Msg.mk (some "7.1") none none none (some "7.1") 5 none]
        "exports" "general" "C123" 7 false =
      ⟨[], 0, 1⟩ := by
  have hall : ∀ m ∈ [Msg.mk (some "7.1") none none none (some "7.1") 5 none],
      m.replies = none := by
    intro m hm
    rw [List.mem_singleton] at hm
    subst hm
    rfl
  refine ⟨hall, ?_⟩
  have := export_ignores_reply_count
    [Msg.mk (some "7.1") none none none (some "7.1") 5 none] "exports" "general" "C123" 7 hall
  simpa using this

/-- C2: a first successful `get_user_info` lookup caches the profile, and a
second lookup for the same ID answers from the cache with zero upstream
requests (whatever the oracle would now return); a first failing lookup
returns the empty profile without propagating the error, caches nothing, and
the next lookup for that ID makes a fresh upstream request. -/
theorem get_user_info_cache_spec (uapi uapi2 : UApi) (cache : Cache) (uid : String)
    (h : cacheLookup cache uid = none) :
    (∀ r, uapi uid = .ok r →
      get_user_info uapi cache uid = ⟨r.getD .empty, (uid, r.getD .empty) :: cache, 1⟩ ∧
      cacheLookup ((uid, r.getD .empty) :: cache) uid = some (r.getD .empty) ∧
      get_user_info uapi2 ((uid, r.getD .empty) :: cache) uid =
        ⟨r.getD .empty, (uid, r.getD .empty) :: cache, 0⟩) ∧
    (∀ e, uapi uid = .error e →
      get_user_info uapi cache uid = ⟨.empty, cache, 1⟩ ∧
      (get_user_info uapi2 cache uid).requests = 1) := by
  have hhit : ∀ v : UserDict, cacheLookup ((uid, v) :: cache) uid = some v := by
    intro v
    simp [cacheLookup, List.find?_cons_of_pos]
  constructor
  · intro r hr
    refine ⟨?_, hhit _, ?_⟩
    · simp [get_user_info, h, hr]
    · simp [get_user_info, hhit]
  · intro e he
    refine ⟨?_, ?_⟩
    · simp [get_user_info, h, he]
    · cases h2 : uapi2 uid <;> simp [get_user_info, h, h2]

/-- C2 witness: with an empty cache, a successful lookup for `"U1"` is
cached and re-served with zero requests even against a failing oracle, and a
failing lookup returns the empty profile uncached, the retry making one
request. -/
theorem get_user_info_cache_spec_witness :
    cacheLookup ([] : Cache) "U1" = none ∧
    (fun _ => Except.ok (some (UserDict.info ⟨some "Real Name", some "disp", some "uname"⟩))
        : UApi) "U1" =
      .ok (some (UserDict.info ⟨some "Real Name", some "disp", some "uname"⟩)) ∧
    (fun _ => Except.error "request failed" : UApi) "U1" = .error "request failed" ∧
    get_user_info (fun _ => Except.error "request failed") [] "U1" = ⟨.empty, [], 1⟩ ∧
    get_user_info (fun _ => Except.error "request failed")
        [("U1", UserDict.info ⟨some "Real Name", some "disp", some "uname"⟩)] "U1" =
      ⟨UserDict.info ⟨some "Real Name", some "disp", some "uname"⟩,
        [("U1", UserDict.info ⟨some "Real Name", some "disp", some "uname"⟩)], 0⟩ := by
  have hok := (get_user_info_cache_spec
    (fun _ => Except.ok (some (UserDict.info ⟨some "Real Name", some "disp", some "uname"⟩)))
    (fun _ => Except.error "request failed") [] "U1" rfl).1
    (some (UserDict.info ⟨some "Real Name", some "disp", some "uname"⟩)) rfl
  have herr := (get_user_info_cache_spec (fun _ => Except.error "request failed")
    (fun _ => Except.error "request failed") [] "U1" rfl).2 "request failed" rfl
  exact ⟨rfl, rfl, rfl, herr.1, hok.2.2⟩

/-- Helper for C1: hydrating replies onto a message leaves its sort key (its
`"ts"`) unchanged. -/
theorem sortKey_hydrate (rapi : Option String → List Msg) (m : Msg) :
    sortKey (if m.reply_count > 0 then
        m.setReplies (some (fetch_thread_replies (rapi m.ts))) else m) =
      sortKey m := by
  by_cases hm : m.reply_count > 0
  · cases m
    simp only [Msg.reply_count] at hm
    simp [Msg.reply_count, Msg.setReplies, sortKey, Msg.ts, hm]
  · simp [hm]

/-- C1: whatever messages the history pages carried and however they were
split across pages, `fetch_messages` returns a sequence that is
non-decreasing in the numeric value of each message's timestamp, and a
message with no `"ts"` field has sort key 0. -/
theorem fetch_messages_sorted (pages : List Page) (rapi : Option String → List Msg)
    (include_replies : Bool) :
    List.Pairwise (fun a b => sortKey a ≤ sortKey b)
        (fetch_messages pages rapi include_replies) ∧
    ∀ m : Msg, m.ts = none → sortKey m = 0 := by
  constructor
  · have trans : ∀ a b c : Msg, msgLe a b → msgLe b c → msgLe a c := by
      intro a b c hab hbc
      simp only [msgLe, decide_eq_true_eq] at *
      exact le_trans hab hbc
    have total : ∀ a b : Msg, msgLe a b || msgLe b a := by
      intro a b
      simp only [msgLe, Bool.or_eq_true, decide_eq_true_eq]
      exact le_total _ _
    have hs := List.sorted_mergeSort trans total (fetchLoop pages)
    have hs2 : List.Pairwise (fun a b => sortKey a ≤ sortKey b)
        (sortMessages (fetchLoop pages)) := by
      refine List.Pairwise.imp ?_ hs
      intro a b hab
      simpa only [msgLe, decide_eq_true_eq] using hab
    unfold fetch_messages
    cases include_replies with
    | false => simpa using hs2
    | true =>
        simp only [if_true]
        unfold fetch_replies_for_messages
        refine List.Pairwise.map _ ?_ hs2
        intro a b hab
        rw [sortKey_hydrate rapi a, sortKey_hydrate rapi b]
        exact hab
  · intro m hm
    simp [sortKey, hm]

/-- C1 witness: a concrete message with no `"ts"` field has sort key 0. -/
theorem fetch_messages_sorted_witness :
    (Msg.mk none none none none none 0 none).ts = none ∧
    sortKey (Msg.mk none none none none none 0 none) = 0 :=
  ⟨rfl, (fetch_messages_sorted [] (fun _ => []) false).2
    (Msg.mk none none none none none 0 none) rfl⟩

/-- Helper: `String.join` distributes over list append. -/
theorem join_append_str (a b : List String) :
    String.join (a ++ b) = String.join a ++ String.join b := by
  apply String.ext
  simp [String.join_eq]

/-- Helper for C7: items are rendered left to right, the cache threaded
through and the parts and request counts accumulated in order. -/
theorem renderItems_append (uapi : UApi) (xs ys : List RichItem) (c : Cache) :
    renderItems uapi (xs ++ ys) c =
      ((renderItems uapi xs c).1 ++ (renderItems uapi ys (renderItems uapi xs c).2.1).1,
        (renderItems uapi ys (renderItems uapi xs c).2.1).2.1,
        (renderItems uapi xs c).2.2 + (renderItems uapi ys (renderItems uapi xs c).2.1).2.2) := by
  induction xs generalizing c with
  | nil => simp [renderItems]
  | cons x xs ih =>
      simp only [List.cons_append, renderItems, List.append_eq]
      rw [ih]
      simp [List.append_assoc, Nat.add_assoc]

/-- Helper for C7: elements are rendered left to right. -/
theorem renderElements_append (uapi : UApi) (xs ys : List RichElement) (c : Cache) :
    renderElements uapi (xs ++ ys) c =
      ((renderElements uapi xs c).1 ++
          (renderElements uapi ys (renderElements uapi xs c).2.1).1,
        (renderElements uapi ys (renderElements uapi xs c).2.1).2.1,
        (renderElements uapi xs c).2.2 +
          (renderElements uapi ys (renderElements uapi xs c).2.1).2.2) := by
  induction xs generalizing c with
  | nil => simp [renderElements]
  | cons x xs ih =>
      simp only [List.cons_append, renderElements, List.append_eq]
      rw [ih]
      simp [List.append_assoc, Nat.add_assoc]

/-- Helper for C7: blocks are rendered left to right. -/
theorem renderBlocks_append (uapi : UApi) (xs ys : List Block) (c : Cache) :
    renderBlocks uapi (xs ++ ys) c =
      ((renderBlocks uapi xs c).1 ++ (renderBlocks uapi ys (renderBlocks uapi xs c).2.1).1,
        (renderBlocks uapi ys (renderBlocks uapi xs c).2.1).2.1,
        (renderBlocks uapi xs c).2.2 +
          (renderBlocks uapi ys (renderBlocks uapi xs c).2.1).2.2) := by
  induction xs generalizing c with
  | nil => simp [renderBlocks]
  | cons x xs ih =>
      simp only [List.cons_append, renderBlocks, List.append_eq]
      rw [ih]
      simp [List.append_assoc, Nat.add_assoc]

/-- Helper for C7: an item contributes no part exactly when its kind is
unrecognized. -/
theorem renderItem_parts_eq_nil (uapi : UApi) (c : Cache) (it : RichItem) :
    (renderItem uapi c it).1 = [] ↔ itemRecognized it = false := by
  cases it <;> simp [renderItem, itemRecognized]

/-- Helper for C7: a list of items contributes no part exactly when it holds
no recognized item. -/
theorem renderItems_parts_eq_nil (uapi : UApi) (its : List RichItem) (c : Cache) :
    (renderItems uapi its c).1 = [] ↔ its.filter itemRecognized = [] := by
  induction its generalizing c with
  | nil => simp [renderItems]
  | cons it rest ih =>
      rw [show (renderItems uapi (it :: rest) c).1 =
          (renderItem uapi c it).1 ++
            (renderItems uapi rest (renderItem uapi c it).2.1).1 from rfl]
      rw [List.append_eq_nil, List.filter_cons]
      cases hrec : itemRecognized it
      · have hpnil : (renderItem uapi c it).1 = [] :=
          (renderItem_parts_eq_nil uapi c it).mpr hrec
        simp [hrec, hpnil, ih]
      · have hne : ¬(renderItem uapi c it).1 = [] := by
          intro hnil
          have h2 := (renderItem_parts_eq_nil uapi c it).mp hnil
          rw [hrec] at h2
          cases h2
        simp [hne]

/-- Helper for C7: elements contribute no part exactly when their sections
hold no recognized item. -/
theorem renderElements_parts_eq_nil (uapi : UApi) (els : List RichElement) (c : Cache) :
    (renderElements uapi els c).1 = [] ↔
      (sectionItems els).filter itemRecognized = [] := by
  induction els generalizing c with
  | nil => simp [renderElements, sectionItems]
  | cons e rest ih =>
      cases e with
      | richTextSection items =>
          rw [show (renderElements uapi (RichElement.richTextSection items :: rest) c).1 =
              (renderItems uapi items c).1 ++
                (renderElements uapi rest (renderItems uapi items c).2.1).1 from rfl]
          rw [show sectionItems (RichElement.richTextSection items :: rest) =
              items ++ sectionItems rest from rfl]
          rw [List.filter_append, List.append_eq_nil, List.append_eq_nil]
          exact and_congr (renderItems_parts_eq_nil uapi items c)
            (ih ((renderItems uapi items c).2.1))
      | otherElement =>
          rw [show (renderElements uapi (RichElement.otherElement :: rest) c).1 =
              [] ++ (renderElements uapi rest c).1 from rfl]
          rw [show sectionItems (RichElement.otherElement :: rest) =
              sectionItems rest from rfl]
          simpa using ih c

/-- Helper for C7: blocks contribute no part exactly when they hold no
recognized item. -/
theorem renderBlocks_parts_eq_nil (uapi : UApi) (bs : List Block) (c : Cache) :
    (renderBlocks uapi bs c).1 = [] ↔ (blockItems bs).filter itemRecognized = [] := by
  induction bs generalizing c with
  | nil => simp [renderBlocks, blockItems]
  | cons b rest ih =>
      cases b with
      | richText els =>
          rw [show (renderBlocks uapi (Block.richText els :: rest) c).1 =
              (renderElements uapi els c).1 ++
                (renderBlocks uapi rest (renderElements uapi els c).2.1).1 from rfl]
          rw [show blockItems (Block.richText els :: rest) =
              sectionItems els ++ blockItems rest from rfl]
          rw [List.filter_append, List.append_eq_nil, List.append_eq_nil]
          exact and_congr (renderElements_parts_eq_nil uapi els c)
            (ih ((renderElements uapi els c).2.1))
      | otherBlock =>
          rw [show (renderBlocks uapi (Block.otherBlock :: rest) c).1 =
              [] ++ (renderBlocks uapi rest c).1 from rfl]
          rw [show blockItems (Block.otherBlock :: rest) = blockItems rest from rfl]
          simpa using ih c

/-- C7 (amended): each recognized rich-text item renders as claimed — a text
item verbatim, a link item as `[label](url)` with the label falling back to
the URL when the item's `text` key is absent, a user mention as `@<label>`
resolved through `get_user_info`, an emoji as `:name:` — unrecognized items
are skipped, the output concatenates the contributions in original order
with no separators, and the result is `none` exactly when no recognized
item occurs in the blocks (a recognized item rendering to the empty string
still yields a string). -/
theorem extract_text_spec (uapi : UApi) :
    (∀ (c : Cache) (t : String),
      extract_text_from_blocks uapi c [oneItem (.text (some t))] = (some t, c, 0)) ∧
    (∀ (c : Cache) (l u : String),
      extract_text_from_blocks uapi c [oneItem (.link (some l) (some u))] =
        (some ("[" ++ l ++ "](" ++ u ++ ")"), c, 0)) ∧
    (∀ (c : Cache) (u : String),
      extract_text_from_blocks uapi c [oneItem (.link none (some u))] =
        (some ("[" ++ u ++ "](" ++ u ++ ")"), c, 0)) ∧
    (∀ (c : Cache) (uid : String),
      extract_text_from_blocks uapi c [oneItem (.user (some uid))] =
        (some ("@" ++ mentionDisplay (get_user_info uapi c uid).ret uid),
          (get_user_info uapi c uid).cache, (get_user_info uapi c uid).requests)) ∧
    (∀ (c : Cache) (nm : String),
      extract_text_from_blocks uapi c [oneItem (.emoji (some nm))] =
        (some (":" ++ nm ++ ":"), c, 0)) ∧
    (∀ c : Cache,
      extract_text_from_blocks uapi c [oneItem .unrecognized] = (none, c, 0)) ∧
    (∀ (c : Cache) (bs1 bs2 : List Block) (s1 s2 : String),
      (extract_text_from_blocks uapi c bs1).1 = some s1 →
      (extract_text_from_blocks uapi (extract_text_from_blocks uapi c bs1).2.1 bs2).1
        = some s2 →
      (extract_text_from_blocks uapi c (bs1 ++ bs2)).1 = some (s1 ++ s2)) ∧
    (∀ (c : Cache) (bs : List Block),
      (extract_text_from_blocks uapi c bs).1 = none ↔ recognizedItems bs = []) := by
  refine ⟨?_, ?_, ?_, ?_, ?_, ?_, ?_, ?_⟩
  · intro c t
    simp [extract_text_from_blocks, renderBlocks, renderBlock, renderElements,
      renderElement, renderItems, renderItem, oneItem, String.join]
  · intro c l u
    simp [extract_text_from_blocks, renderBlocks, renderBlock, renderElements,
      renderElement, renderItems, renderItem, oneItem, String.join]
  · intro c u
    simp [extract_text_from_blocks, renderBlocks, renderBlock, renderElements,
      renderElement, renderItems, renderItem, oneItem, String.join]
  · intro c uid
    simp [extract_text_from_blocks, renderBlocks, renderBlock, renderElements,
      renderElement, renderItems, renderItem, oneItem, String.join]
  · intro c nm
    simp [extract_text_from_blocks, renderBlocks, renderBlock, renderElements,
      renderElement, renderItems, renderItem, oneItem, String.join]
  · intro c
    simp [extract_text_from_blocks, renderBlocks, renderBlock, renderElements,
      renderElement, renderItems, renderItem, oneItem]
  · intro c bs1 bs2 s1 s2 h1 h2
    by_cases hn1 : (renderBlocks uapi bs1 c).1 = []
    · simp [extract_text_from_blocks, hn1] at h1
    · have hcache : (extract_text_from_blocks uapi c bs1).2.1 =
          (renderBlocks uapi bs1 c).2.1 := rfl
      rw [hcache] at h2
      by_cases hn2 : (renderBlocks uapi bs2 (renderBlocks uapi bs1 c).2.1).1 = []
      · simp [extract_text_from_blocks, hn2] at h2
      · have hs1 : String.join (renderBlocks uapi bs1 c).1 = s1 := by
          simpa [extract_text_from_blocks, hn1] using h1
        have hs2 : String.join
            (renderBlocks uapi bs2 (renderBlocks uapi bs1 c).2.1).1 = s2 := by
          simpa [extract_text_from_blocks, hn2] using h2
        have happ := renderBlocks_append uapi bs1 bs2 c
        have hparts : (renderBlocks uapi (bs1 ++ bs2) c).1 =
            (renderBlocks uapi bs1 c).1 ++
              (renderBlocks uapi bs2 (renderBlocks uapi bs1 c).2.1).1 := by
          rw [happ]
        have hne : (renderBlocks uapi (bs1 ++ bs2) c).1 ≠ [] := by
          rw [hparts]
          simp [hn1]
        simp only [extract_text_from_blocks, if_neg hne]
        rw [hparts, join_append_str, hs1, hs2]
  · intro c bs
    by_cases hn : (renderBlocks uapi bs c).1 = []
    · have hyes := (renderBlocks_parts_eq_nil uapi bs c).mp hn
      simp [extract_text_from_blocks, hn, recognizedItems, hyes]
    · have hno : ¬(blockItems bs).filter itemRecognized = [] := fun hc =>
        hn ((renderBlocks_parts_eq_nil uapi bs c).mpr hc)
      simp [extract_text_from_blocks, hn, recognizedItems, hno]

/-- C7 witness: a concrete text item renders verbatim with no upstream
request and an unchanged cache. -/
theorem extract_text_spec_witness :
    extract_text_from_blocks (fun _ => .error "network unreachable") []
        [oneItem (.text (some "hello"))] =
      (some "hello", [], 0) :=
  (extract_text_spec (fun _ => .error "network unreachable")).1 [] "hello"

/-- C7 counterexample: a rich-text block whose only item is a text item with
no `"text"` key contributes only the empty string, and the renderer returns
`Some ""`, not `None` as the claim's final clause states. -/
theorem extract_text_empty_counterexample :
    extract_text_from_blocks (fun _ => .error "network unreachable") []
        [oneItem (.text none)] =
      (some "", [], 0) ∧
    (some "" : Option String) ≠ none := by
  refine ⟨?_, by simp⟩
  rfl

end SlackExp
